import Mathlib

/-!
Verification of the CodeReserve escrow protocol.

The on-chain part is `CodeReserveEscrow.sol`: a deposit ledger with four
operations (deposit, refund, slash, claimTimeout) and two read helpers
(canClaimTimeout, timeUntilTimeout).  The off-chain part is the API service
(`blockchain.ts` for digest construction and signing, `deposits.ts` for the
refund/slash request routes and the mirror database).

Modelling conventions:
* addresses and amounts are `Nat` (address 0 is the zero address);
* Solidity mappings are total functions with the zero-value default,
  exactly as EVM storage behaves for never-written keys;
* keccak256 / EIP-712 digests are modelled as an inductive `Message`
  identified by its structured preimage, i.e. the hash is treated as
  injective (collisions have negligible probability, which is the
  assumption the contract itself relies on);
* an ECDSA signature is identified with its recovery behaviour, a function
  `Message → Address`: `ECDSA.recover(m, sig)` is deterministic in
  `(m, sig)`, so this is faithful; an honest signature produced over
  message `m` by the holder of key `k` recovers to `k`'s address on `m`
  and (with overwhelming probability) to no attacker-chosen address on any
  other message.
-/

namespace CodeReserve

/-- Ethereum addresses, modelled as naturals; `0` is the zero address. -/
abbrev Address := Nat

/-- The two settlement intents the signing authority can authorize.
Corresponds to the type-hash strings `"Refund(uint256 depositId,uint256 deadline)"`
and `"Slash(uint256 depositId,uint256 deadline)"`. -/
inductive SigIntent where
  | refundIntent
  | slashIntent
deriving DecidableEq, Repr

/-- A 32-byte message hash, identified by its structured preimage (keccak256
modelled as injective).
* `eip712 intent depositId deadline domain` is the digest
  `keccak256("\x19\x01" ‖ DOMAIN_SEPARATOR ‖ keccak256(abi.encode(TYPEHASH, depositId, deadline)))`
  built both by the contract (`refund`/`slash`) and by the backend
  (`createRefundSignature`/`createSlashSignature` in `blockchain.ts` — the byte-level
  constructions agree: `encodePacked` of the `"\x19\x01"` string and
  `encodeAbiParameters('bytes32, uint256, uint256', …)` match the contract's
  `abi.encodePacked`/`abi.encode`).
* `eip191 inner` is the EIP-191 personal-message hash
  `keccak256("\x19Ethereum Signed Message:\n32" ‖ inner)`, which is what
  viem's `signMessage({ message: { raw: digest } })` actually signs. -/
inductive Message where
  | eip712 (intent : SigIntent) (depositId : Nat) (deadline : Nat) (domain : Nat)
  | eip191 (inner : Message)
deriving DecidableEq, Repr

/-- A signature, identified with its ECDSA recovery behaviour. -/
def Signature := Message → Address

/-- `ECDSA.recover(messageHash, signature)`. -/
def ecrecover (m : Message) (s : Signature) : Address := s m

/-- `DepositStatus` enum of the contract; `Active` is the first member, hence
the default value of uninitialized storage. -/
inductive DepositStatus where
  | Active
  | Refunded
  | Slashed
  | TimedOut
deriving DecidableEq, Repr

/-- The `Deposit` struct of the contract. -/
structure Deposit where
  depositor : Address
  amount : Nat
  repoId : Nat
  prNumber : Nat
  treasury : Address
  timestamp : Nat
  status : DepositStatus
deriving DecidableEq, Repr

/-- The all-zero record a Solidity mapping returns for a never-written key:
zero addresses and amounts, `createdAt = 0`, and status `Active` (enum value 0). -/
def defaultDeposit : Deposit :=
  { depositor := 0
    amount := 0
    repoId := 0
    prNumber := 0
    treasury := 0
    timestamp := 0
    status := DepositStatus.Active }

/-- `TIMEOUT_DURATION = 30 days`, in seconds. -/
def TIMEOUT_DURATION : Nat := 30 * 24 * 60 * 60

/-- Contract storage: the immutable domain separator and signer, the
`deposits` mapping, `nextDepositId`, and the `usedSignatures` mapping. -/
structure EscrowState where
  domainSep : Nat
  signer : Address
  deposits : Nat → Deposit
  nextDepositId : Nat
  usedSignatures : Message → Bool

/-- `deposits[depositId]` (with the mapping's zero default). -/
def getDeposit (st : EscrowState) (depositId : Nat) : Deposit :=
  st.deposits depositId

/-- The custom errors of the contract. -/
inductive EscrowError where
  | InvalidAmount
  | InvalidAddress
  | DepositNotActive
  | InvalidSignature
  | SignatureAlreadyUsed
  | TimeoutNotReached
  | SignatureExpired
deriving DecidableEq, Repr

/-- A token transfer performed by the contract (`usdc.safeTransfer`). -/
structure Transfer where
  recipient : Address
  amount : Nat
deriving DecidableEq, Repr

/-- The EIP-712 digest the contract recomputes inside `refund`. -/
def refundDigest (domainSep depositId deadline : Nat) : Message :=
  Message.eip712 SigIntent.refundIntent depositId deadline domainSep

/-- The EIP-712 digest the contract recomputes inside `slash`. -/
def slashDigest (domainSep depositId deadline : Nat) : Message :=
  Message.eip712 SigIntent.slashIntent depositId deadline domainSep

/-- `deposit(repoId, prNumber, treasury, amount)` called by `sender` at time
`now`: checks `amount != 0` and `treasury != 0`, assigns `nextDepositId`,
records the new Active deposit and returns its id.  (The incoming
`safeTransferFrom` is not tracked; only outgoing settlements are.) -/
def deposit (st : EscrowState) (sender : Address) (now repoId prNumber : Nat)
    (treasury : Address) (amount : Nat) : Except EscrowError (EscrowState × Nat) :=
  if amount = 0 then Except.error EscrowError.InvalidAmount
  else if treasury = 0 then Except.error EscrowError.InvalidAddress
  else
    let id := st.nextDepositId
    Except.ok
      ({ st with
          nextDepositId := id + 1
          deposits := Function.update st.deposits id
            { depositor := sender
              amount := amount
              repoId := repoId
              prNumber := prNumber
              treasury := treasury
              timestamp := now
              status := DepositStatus.Active } },
        id)

/-- `refund(depositId, deadline, signature)` at time `now`, following the
contract's check order: deadline, status, used digest, recovered signer;
on success marks the digest used, sets status `Refunded` and transfers
`amount` to `depositor`. -/
def refund (st : EscrowState) (now depositId deadline : Nat) (sig : Signature) :
    Except EscrowError (EscrowState × Transfer) :=
  if deadline < now then Except.error EscrowError.SignatureExpired
  else
    let dep := st.deposits depositId
    if dep.status ≠ DepositStatus.Active then Except.error EscrowError.DepositNotActive
    else
      let msg := refundDigest st.domainSep depositId deadline
      if st.usedSignatures msg then Except.error EscrowError.SignatureAlreadyUsed
      else if ecrecover msg sig ≠ st.signer then Except.error EscrowError.InvalidSignature
      else
        Except.ok
          ({ st with
              usedSignatures := Function.update st.usedSignatures msg true
              deposits := Function.update st.deposits depositId
                { dep with status := DepositStatus.Refunded } },
            { recipient := dep.depositor, amount := dep.amount })

/-- `slash(depositId, deadline, signature)` at time `now`: same structure as
`refund` but with the Slash digest, status `Slashed`, and the transfer going
to `treasury`. -/
def slash (st : EscrowState) (now depositId deadline : Nat) (sig : Signature) :
    Except EscrowError (EscrowState × Transfer) :=
  if deadline < now then Except.error EscrowError.SignatureExpired
  else
    let dep := st.deposits depositId
    if dep.status ≠ DepositStatus.Active then Except.error EscrowError.DepositNotActive
    else
      let msg := slashDigest st.domainSep depositId deadline
      if st.usedSignatures msg then Except.error EscrowError.SignatureAlreadyUsed
      else if ecrecover msg sig ≠ st.signer then Except.error EscrowError.InvalidSignature
      else
        Except.ok
          ({ st with
              usedSignatures := Function.update st.usedSignatures msg true
              deposits := Function.update st.deposits depositId
                { dep with status := DepositStatus.Slashed } },
            { recipient := dep.treasury, amount := dep.amount })

/-- `claimTimeout(depositId)` called by `caller` at time `now`.  The contract
never reads `msg.sender`, so `caller` is unused: anyone can call.  Requires
status Active and `now >= timestamp + TIMEOUT_DURATION`; sets status
`TimedOut` and transfers `amount` to the original depositor. -/
def claimTimeout (st : EscrowState) (caller : Address) (now depositId : Nat) :
    Except EscrowError (EscrowState × Transfer) :=
  let _ := caller
  let dep := st.deposits depositId
  if dep.status ≠ DepositStatus.Active then Except.error EscrowError.DepositNotActive
  else if now < dep.timestamp + TIMEOUT_DURATION then Except.error EscrowError.TimeoutNotReached
  else
    Except.ok
      ({ st with
          deposits := Function.update st.deposits depositId
            { dep with status := DepositStatus.TimedOut } },
        { recipient := dep.depositor, amount := dep.amount })

/-- View `canClaimTimeout(depositId)`:
`status == Active && block.timestamp >= timestamp + TIMEOUT_DURATION`. -/
def canClaimTimeout (st : EscrowState) (now depositId : Nat) : Bool :=
  let dep := st.deposits depositId
  decide (dep.status = DepositStatus.Active) &&
    decide (dep.timestamp + TIMEOUT_DURATION ≤ now)

/-- View `timeUntilTimeout(depositId)`: seconds until the timeout claim is
available, `0` if already claimable. -/
def timeUntilTimeout (st : EscrowState) (now depositId : Nat) : Nat :=
  let dep := st.deposits depositId
  let timeoutAt := dep.timestamp + TIMEOUT_DURATION
  if timeoutAt ≤ now then 0 else timeoutAt - now

/-! ### Traces of contract calls

`Op` is one external call; `step` executes it (a reverted call leaves the
state unchanged and moves no funds, by EVM atomicity); `run` executes a whole
call sequence.  Each successful settlement is recorded as a `Settlement`,
which also stands for the corresponding emitted event
(`DepositRefunded` / `DepositSlashed` / `DepositTimedOut`). -/

/-- Which terminal transition a settlement performed. -/
inductive SettleKind where
  | refunded
  | slashed
  | timedOut
deriving DecidableEq, Repr

/-- One outgoing fund movement of the contract, tagged with the deposit it
settles; doubles as the emitted settlement event. -/
structure Settlement where
  depositId : Nat
  kind : SettleKind
  recipient : Address
  amount : Nat
deriving DecidableEq, Repr

/-- One external call to the contract. -/
inductive Op where
  | createOp (sender now repoId prNumber treasury amount : Nat)
  | refundOp (now depositId deadline : Nat) (sig : Signature)
  | slashOp (now depositId deadline : Nat) (sig : Signature)
  | timeoutOp (caller now depositId : Nat)

/-- Execute one call: a revert leaves the state unchanged and produces no
settlement. -/
def step (st : EscrowState) (op : Op) : EscrowState × List Settlement :=
  match op with
  | Op.createOp sender now repoId prNumber treasury amount =>
    match deposit st sender now repoId prNumber treasury amount with
    | Except.ok (st1, _) => (st1, [])
    | Except.error _ => (st, [])
  | Op.refundOp now depositId deadline sig =>
    match refund st now depositId deadline sig with
    | Except.ok (st1, tr) =>
      (st1, [{ depositId := depositId, kind := SettleKind.refunded,
               recipient := tr.recipient, amount := tr.amount }])
    | Except.error _ => (st, [])
  | Op.slashOp now depositId deadline sig =>
    match slash st now depositId deadline sig with
    | Except.ok (st1, tr) =>
      (st1, [{ depositId := depositId, kind := SettleKind.slashed,
               recipient := tr.recipient, amount := tr.amount }])
    | Except.error _ => (st, [])
  | Op.timeoutOp caller now depositId =>
    match claimTimeout st caller now depositId with
    | Except.ok (st1, tr) =>
      (st1, [{ depositId := depositId, kind := SettleKind.timedOut,
               recipient := tr.recipient, amount := tr.amount }])
    | Except.error _ => (st, [])

/-- Execute a sequence of calls, collecting all settlements in order. -/
def run (st : EscrowState) : List Op → EscrowState × List Settlement
  | [] => (st, [])
  | op :: ops =>
    let p := step st op
    let q := run p.1 ops
    (q.1, p.2 ++ q.2)

/-- The settlements of a trace that concern one deposit id. -/
def settlementsFor (depositId : Nat) (l : List Settlement) : List Settlement :=
  l.filter (fun s => decide (s.depositId = depositId))

/-- The state of a freshly deployed contract: empty mappings,
`nextDepositId = 0`. -/
def genesis (domainSep : Nat) (signer : Address) : EscrowState :=
  { domainSep := domainSep
    signer := signer
    deposits := fun _ => defaultDeposit
    nextDepositId := 0
    usedSignatures := fun _ => false }

/-- `op` is a settlement call (refund/slash/claimTimeout) targeting `id`. -/
def opTargets (op : Op) (id : Nat) : Prop :=
  match op with
  | Op.createOp _ _ _ _ _ _ => False
  | Op.refundOp _ depositId _ _ => depositId = id
  | Op.slashOp _ depositId _ _ => depositId = id
  | Op.timeoutOp _ _ depositId => depositId = id

/-! ### The off-chain backend

`blockchain.ts`: digest construction and signing by the API service. -/

/-- The digest `createRefundSignature` in `blockchain.ts` builds: the same
EIP-712 digest as the contract (`REFUND_TYPEHASH`, `depositId`, `deadline`,
the contract's `DOMAIN_SEPARATOR`, packed under `"\x19\x01"`). -/
def backendRefundDigest (domainSep depositId deadline : Nat) : Message :=
  Message.eip712 SigIntent.refundIntent depositId deadline domainSep

/-- The digest `createSlashSignature` in `blockchain.ts` builds. -/
def backendSlashDigest (domainSep depositId deadline : Nat) : Message :=
  Message.eip712 SigIntent.slashIntent depositId deadline domainSep

/-- The message `createRefundSignature` actually signs: it passes the digest
to viem's `walletClient.signMessage({ message: { raw: digest } })`, and
`signMessage` signs the EIP-191 personal-message hash
`keccak256("\x19Ethereum Signed Message:\n32" ‖ digest)` — not the digest
itself. -/
def backendRefundSignedMessage (domainSep depositId deadline : Nat) : Message :=
  Message.eip191 (backendRefundDigest domainSep depositId deadline)

/-- The message `createSlashSignature` actually signs (EIP-191 wrapped). -/
def backendSlashSignedMessage (domainSep depositId deadline : Nat) : Message :=
  Message.eip191 (backendSlashDigest domainSep depositId deadline)

/-- An honest ECDSA signature by the holder of address `key` over message
`m`: recovers to `key` on `m`; on any other message it recovers to a value
an attacker cannot steer, modelled by `other`. -/
def idealSignature (key : Address) (m : Message) (other : Message → Address) : Signature :=
  fun m2 => if m2 = m then key else other m2

/-! ### The off-chain mirror and the deposit routes (`deposits.ts`) -/

/-- Status of a mirrored deposit record in the API database
(`status TEXT NOT NULL DEFAULT 'pending'`). -/
inductive MirrorStatus where
  | pending
  | confirmed
  | refunded
  | slashed
deriving DecidableEq, Repr

/-- A mirror status is terminal when it reports a finished settlement. -/
def MirrorStatus.isTerminal : MirrorStatus → Bool
  | MirrorStatus.refunded => true
  | MirrorStatus.slashed => true
  | _ => false

/-- State of a pull request as stored in the `pull_requests` table
(the API only ever writes `"open"`, `"merged"`, `"closed"`). -/
inductive PrState where
  | isOpen
  | merged
  | closed
deriving DecidableEq, Repr

/-- A row of the `deposits` table, restricted to the fields the settlement
routes read or write. -/
structure MirrorDeposit where
  userId : Nat
  prId : Nat
  onchainId : Nat
  status : MirrorStatus
  refundTxHash : Option Nat
  slashReason : Option String
  slashedById : Option Nat
deriving DecidableEq, Repr

/-- Successful response of the refund/slash routes:
`{depositId, signature, deadline, contractAddress, chainId}` (the signature
and static fields are not modelled; `deadline` is the signed deadline). -/
structure AuthorizationOk where
  depositId : Nat
  deadline : Nat
deriving DecidableEq, Repr

/-- `POST /api/deposits/:id/refund` (`deposits.ts` 253–302).  Inputs model
what the handler reads: the authenticated user (None = missing/invalid
token), the mirror row for `:id`, the state of the associated PR row, the
current time in seconds, and whether the signing wallet is configured
(`createRefundSignature` throws otherwise).  Output: the HTTP response
(error status code, or the authorization payload) paired with a flag
recording whether a signature was produced. -/
def refundRoute (authUser : Option Nat) (dep : Option MirrorDeposit)
    (pr : Option PrState) (now : Nat) (signerConfigured : Bool) :
    Except Nat AuthorizationOk × Bool :=
  match authUser with
  | none => (Except.error 401, false)
  | some uid =>
    match dep with
    | none => (Except.error 404, false)
    | some d =>
      if d.userId ≠ uid then (Except.error 403, false)
      else if d.status ≠ MirrorStatus.confirmed then (Except.error 400, false)
      else
        match pr with
        | none => (Except.error 400, false)
        | some p =>
          if p ≠ PrState.merged ∧ p ≠ PrState.closed then (Except.error 400, false)
          else
            let deadline := now + 3600
            if signerConfigured then
              (Except.ok { depositId := d.onchainId, deadline := deadline }, true)
            else (Except.error 500, false)

/-- `POST /api/deposits/:id/slash` (`deposits.ts` 306–405).  Inputs as for
`refundRoute`, plus the slash `reason`, whether the repository row exists,
whether the caller has maintainer (write) access, and whether the GitHub
label/comment calls succeed (they run inside the same `try` *after* the
database update).  Output: the HTTP response paired with the mirror row
after the call. -/
def slashRoute (authUser : Option Nat) (reason : String) (dep : Option MirrorDeposit)
    (repoFound : Bool) (hasAccess : Bool) (now : Nat) (signerConfigured : Bool)
    (githubOk : Bool) : Except Nat AuthorizationOk × Option MirrorDeposit :=
  match authUser with
  | none => (Except.error 401, dep)
  | some uid =>
    if reason.length < 10 ∨ 500 < reason.length then (Except.error 400, dep)
    else
      match dep with
      | none => (Except.error 404, none)
      | some d =>
        if d.status ≠ MirrorStatus.confirmed then (Except.error 400, some d)
        else if ¬repoFound then (Except.error 404, some d)
        else if ¬hasAccess then (Except.error 403, some d)
        else if ¬signerConfigured then (Except.error 500, some d)
        else
          let deadline := now + 3600
          let d1 := { d with
            status := MirrorStatus.slashed
            slashReason := some reason
            slashedById := some uid }
          if ¬githubOk then (Except.error 500, some d1)
          else (Except.ok { depositId := d.onchainId, deadline := deadline }, some d1)

/-! ### Basic lemmas about the contract operations -/

theorem deposit_ok_inv {st : EscrowState} {sender now repoId prNumber treasury amount : Nat}
    {st1 : EscrowState} {did : Nat}
    (h : deposit st sender now repoId prNumber treasury amount = Except.ok (st1, did)) :
    did = st.nextDepositId ∧
    st1.nextDepositId = st.nextDepositId + 1 ∧
    st1.deposits = Function.update st.deposits st.nextDepositId
      { depositor := sender, amount := amount, repoId := repoId, prNumber := prNumber,
        treasury := treasury, timestamp := now, status := DepositStatus.Active } ∧
    st1.domainSep = st.domainSep ∧ st1.signer = st.signer ∧
    st1.usedSignatures = st.usedSignatures := by
  unfold deposit at h
  split_ifs at h
  simp only [Except.ok.injEq, Prod.mk.injEq] at h
  obtain ⟨h1, h2⟩ := h
  subst h2
  rw [← h1]
  exact ⟨rfl, rfl, rfl, rfl, rfl, rfl⟩

theorem refund_ok_inv {st : EscrowState} {now depositId deadline : Nat} {sig : Signature}
    {st1 : EscrowState} {tr : Transfer}
    (h : refund st now depositId deadline sig = Except.ok (st1, tr)) :
    (st.deposits depositId).status = DepositStatus.Active ∧
    ¬ deadline < now ∧
    st.usedSignatures (refundDigest st.domainSep depositId deadline) = false ∧
    ecrecover (refundDigest st.domainSep depositId deadline) sig = st.signer ∧
    tr = { recipient := (st.deposits depositId).depositor,
           amount := (st.deposits depositId).amount } ∧
    st1.deposits = Function.update st.deposits depositId
      { st.deposits depositId with status := DepositStatus.Refunded } ∧
    st1.usedSignatures = Function.update st.usedSignatures
      (refundDigest st.domainSep depositId deadline) true ∧
    st1.nextDepositId = st.nextDepositId ∧
    st1.domainSep = st.domainSep ∧ st1.signer = st.signer := by
  by_cases h1 : deadline < now
  · simp [refund, h1] at h
  · by_cases h2 : (st.deposits depositId).status = DepositStatus.Active
    · by_cases h3 : st.usedSignatures (refundDigest st.domainSep depositId deadline) = true
      · simp [refund, h1, h2, h3] at h
      · by_cases h4 : ecrecover (refundDigest st.domainSep depositId deadline) sig = st.signer
        · simp only [refund, if_neg h1, h2, ne_eq, not_true_eq_false, if_false] at h
          rw [if_neg (by simp [h3]), if_neg (by simp [h4])] at h
          simp only [Except.ok.injEq, Prod.mk.injEq] at h
          obtain ⟨h5, h6⟩ := h
          subst h6
          rw [← h5]
          simp only [Bool.not_eq_true] at h3
          exact ⟨h2, h1, h3, h4, rfl, rfl, rfl, rfl, rfl, rfl⟩
        · simp [refund, h1, h2, h3, h4] at h
    · simp [refund, h1, h2] at h

theorem slash_ok_inv {st : EscrowState} {now depositId deadline : Nat} {sig : Signature}
    {st1 : EscrowState} {tr : Transfer}
    (h : slash st now depositId deadline sig = Except.ok (st1, tr)) :
    (st.deposits depositId).status = DepositStatus.Active ∧
    ¬ deadline < now ∧
    st.usedSignatures (slashDigest st.domainSep depositId deadline) = false ∧
    ecrecover (slashDigest st.domainSep depositId deadline) sig = st.signer ∧
    tr = { recipient := (st.deposits depositId).treasury,
           amount := (st.deposits depositId).amount } ∧
    st1.deposits = Function.update st.deposits depositId
      { st.deposits depositId with status := DepositStatus.Slashed } ∧
    st1.usedSignatures = Function.update st.usedSignatures
      (slashDigest st.domainSep depositId deadline) true ∧
    st1.nextDepositId = st.nextDepositId ∧
    st1.domainSep = st.domainSep ∧ st1.signer = st.signer := by
  by_cases h1 : deadline < now
  · simp [slash, h1] at h
  · by_cases h2 : (st.deposits depositId).status = DepositStatus.Active
    · by_cases h3 : st.usedSignatures (slashDigest st.domainSep depositId deadline) = true
      · simp [slash, h1, h2, h3] at h
      · by_cases h4 : ecrecover (slashDigest st.domainSep depositId deadline) sig = st.signer
        · simp only [slash, if_neg h1, h2, ne_eq, not_true_eq_false, if_false] at h
          rw [if_neg (by simp [h3]), if_neg (by simp [h4])] at h
          simp only [Except.ok.injEq, Prod.mk.injEq] at h
          obtain ⟨h5, h6⟩ := h
          subst h6
          rw [← h5]
          simp only [Bool.not_eq_true] at h3
          exact ⟨h2, h1, h3, h4, rfl, rfl, rfl, rfl, rfl, rfl⟩
        · simp [slash, h1, h2, h3, h4] at h
    · simp [slash, h1, h2] at h

theorem claimTimeout_ok_inv {st : EscrowState} {caller : Address} {now depositId : Nat}
    {st1 : EscrowState} {tr : Transfer}
    (h : claimTimeout st caller now depositId = Except.ok (st1, tr)) :
    (st.deposits depositId).status = DepositStatus.Active ∧
    (st.deposits depositId).timestamp + TIMEOUT_DURATION ≤ now ∧
    tr = { recipient := (st.deposits depositId).depositor,
           amount := (st.deposits depositId).amount } ∧
    st1.deposits = Function.update st.deposits depositId
      { st.deposits depositId with status := DepositStatus.TimedOut } ∧
    st1.usedSignatures = st.usedSignatures ∧
    st1.nextDepositId = st.nextDepositId ∧
    st1.domainSep = st.domainSep ∧ st1.signer = st.signer := by
  by_cases h1 : (st.deposits depositId).status = DepositStatus.Active
  · by_cases h2 : now < (st.deposits depositId).timestamp + TIMEOUT_DURATION
    · simp [claimTimeout, h1, h2] at h
    · simp only [claimTimeout, h1, ne_eq, not_true_eq_false, if_false, if_neg h2] at h
      simp only [Except.ok.injEq, Prod.mk.injEq] at h
      obtain ⟨h5, h6⟩ := h
      subst h6
      rw [← h5]
      exact ⟨h1, Nat.le_of_not_lt h2, rfl, rfl, rfl, rfl, rfl, rfl⟩
  · simp [claimTimeout, h1] at h

theorem refund_inactive_eq {st : EscrowState} {now depositId deadline : Nat} {sig : Signature}
    (h : (st.deposits depositId).status ≠ DepositStatus.Active) :
    refund st now depositId deadline sig =
      Except.error (if deadline < now then EscrowError.SignatureExpired
                    else EscrowError.DepositNotActive) := by
  by_cases h1 : deadline < now <;> simp [refund, h1, h]

theorem slash_inactive_eq {st : EscrowState} {now depositId deadline : Nat} {sig : Signature}
    (h : (st.deposits depositId).status ≠ DepositStatus.Active) :
    slash st now depositId deadline sig =
      Except.error (if deadline < now then EscrowError.SignatureExpired
                    else EscrowError.DepositNotActive) := by
  by_cases h1 : deadline < now <;> simp [slash, h1, h]

theorem claimTimeout_inactive_eq {st : EscrowState} {caller : Address} {now depositId : Nat}
    (h : (st.deposits depositId).status ≠ DepositStatus.Active) :
    claimTimeout st caller now depositId = Except.error EscrowError.DepositNotActive := by
  simp [claimTimeout, h]

theorem refund_used_not_ok {st : EscrowState} {now depositId deadline : Nat} {sig : Signature}
    (h : st.usedSignatures (refundDigest st.domainSep depositId deadline) = true)
    (out : EscrowState × Transfer) : refund st now depositId deadline sig ≠ Except.ok out := by
  by_cases h1 : deadline < now
  · simp [refund, h1]
  · by_cases h2 : (st.deposits depositId).status = DepositStatus.Active <;>
      simp [refund, h1, h2, h]

theorem slash_used_not_ok {st : EscrowState} {now depositId deadline : Nat} {sig : Signature}
    (h : st.usedSignatures (slashDigest st.domainSep depositId deadline) = true)
    (out : EscrowState × Transfer) : slash st now depositId deadline sig ≠ Except.ok out := by
  by_cases h1 : deadline < now
  · simp [slash, h1]
  · by_cases h2 : (st.deposits depositId).status = DepositStatus.Active <;>
      simp [slash, h1, h2, h]

/-! ### Trace lemmas -/

theorem settlementsFor_append (id : Nat) (a b : List Settlement) :
    settlementsFor id (a ++ b) = settlementsFor id a ++ settlementsFor id b := by
  simp [settlementsFor, List.filter_append]

theorem step_next_mono (st : EscrowState) (op : Op) :
    st.nextDepositId ≤ (step st op).1.nextDepositId := by
  cases op with
  | createOp sender now repoId prNumber treasury amount =>
    cases hc : deposit st sender now repoId prNumber treasury amount with
    | ok v =>
      obtain ⟨st1, did⟩ := v
      have h := (deposit_ok_inv hc).2.1
      simp only [step, hc]
      omega
    | error e => simp [step, hc]
  | refundOp now depositId deadline sig =>
    cases hc : refund st now depositId deadline sig with
    | ok v =>
      obtain ⟨st1, tr⟩ := v
      have h := (refund_ok_inv hc).2.2.2.2.2.2.2.1
      simp only [step, hc]
      omega
    | error e => simp [step, hc]
  | slashOp now depositId deadline sig =>
    cases hc : slash st now depositId deadline sig with
    | ok v =>
      obtain ⟨st1, tr⟩ := v
      have h := (slash_ok_inv hc).2.2.2.2.2.2.2.1
      simp only [step, hc]
      omega
    | error e => simp [step, hc]
  | timeoutOp caller now depositId =>
    cases hc : claimTimeout st caller now depositId with
    | ok v =>
      obtain ⟨st1, tr⟩ := v
      have h := (claimTimeout_ok_inv hc).2.2.2.2.2.1
      simp only [step, hc]
      omega
    | error e => simp [step, hc]

theorem run_next_mono (ops : List Op) (st : EscrowState) :
    st.nextDepositId ≤ (run st ops).1.nextDepositId := by
  induction ops generalizing st with
  | nil => simp [run]
  | cons op ops ih =>
    calc st.nextDepositId ≤ (step st op).1.nextDepositId := step_next_mono st op
      _ ≤ (run (step st op).1 ops).1.nextDepositId := ih _
      _ = (run st (op :: ops)).1.nextDepositId := by simp [run]

/-- One step either leaves a created deposit's record untouched with no
settlement for it, or (only from `Active`) settles it exactly once, with the
record's `amount`, to the treasury on a slash and to the depositor otherwise,
leaving the record inactive. -/
theorem step_char (st : EscrowState) (op : Op) (id : Nat) (hid : id < st.nextDepositId) :
    ((step st op).1.deposits id = st.deposits id ∧ settlementsFor id (step st op).2 = []) ∨
    ((st.deposits id).status = DepositStatus.Active ∧
     ((step st op).1.deposits id).status ≠ DepositStatus.Active ∧
     ∃ s, (step st op).2 = [s] ∧ settlementsFor id (step st op).2 = [s] ∧
       s.depositId = id ∧ s.amount = (st.deposits id).amount ∧
       (s.kind = SettleKind.slashed → s.recipient = (st.deposits id).treasury) ∧
       (s.kind ≠ SettleKind.slashed → s.recipient = (st.deposits id).depositor)) := by
  cases op with
  | createOp sender now repoId prNumber treasury amount =>
    cases hc : deposit st sender now repoId prNumber treasury amount with
    | ok v =>
      obtain ⟨st1, did⟩ := v
      obtain ⟨-, -, hdeps, -, -, -⟩ := deposit_ok_inv hc
      left
      refine ⟨?_, by simp [step, hc, settlementsFor]⟩
      simp only [step, hc, hdeps]
      exact Function.update_noteq (Nat.ne_of_lt hid) _ _
    | error e => left; simp [step, hc, settlementsFor]
  | refundOp now depositId deadline sig =>
    cases hc : refund st now depositId deadline sig with
    | ok v =>
      obtain ⟨st1, tr⟩ := v
      obtain ⟨hact, -, -, -, htr, hdeps, -, -, -, -⟩ := refund_ok_inv hc
      by_cases hide : depositId = id
      · subst hide
        right
        refine ⟨hact, ?_, ?_⟩
        · simp [step, hc, hdeps, Function.update_same]
        · refine ⟨⟨depositId, SettleKind.refunded, tr.recipient, tr.amount⟩, ?_, ?_, rfl, ?_, ?_, ?_⟩
          · simp [step, hc]
          · simp [step, hc, settlementsFor]
          · rw [htr]
          · intro hk
            exact absurd hk (by simp)
          · intro _
            rw [htr]
      · left
        refine ⟨?_, ?_⟩
        · simp only [step, hc, hdeps]
          exact Function.update_noteq (fun hh => hide hh.symm) _ _
        · simp [step, hc, settlementsFor, hide]
    | error e => left; simp [step, hc, settlementsFor]
  | slashOp now depositId deadline sig =>
    cases hc : slash st now depositId deadline sig with
    | ok v =>
      obtain ⟨st1, tr⟩ := v
      obtain ⟨hact, -, -, -, htr, hdeps, -, -, -, -⟩ := slash_ok_inv hc
      by_cases hide : depositId = id
      · subst hide
        right
        refine ⟨hact, ?_, ?_⟩
        · simp [step, hc, hdeps, Function.update_same]
        · refine ⟨⟨depositId, SettleKind.slashed, tr.recipient, tr.amount⟩, ?_, ?_, rfl, ?_, ?_, ?_⟩
          · simp [step, hc]
          · simp [step, hc, settlementsFor]
          · rw [htr]
          · intro _
            rw [htr]
          · intro hk
            exact absurd rfl hk
      · left
        refine ⟨?_, ?_⟩
        · simp only [step, hc, hdeps]
          exact Function.update_noteq (fun hh => hide hh.symm) _ _
        · simp [step, hc, settlementsFor, hide]
    | error e => left; simp [step, hc, settlementsFor]
  | timeoutOp caller now depositId =>
    cases hc : claimTimeout st caller now depositId with
    | ok v =>
      obtain ⟨st1, tr⟩ := v
      obtain ⟨hact, -, htr, hdeps, -, -, -, -⟩ := claimTimeout_ok_inv hc
      by_cases hide : depositId = id
      · subst hide
        right
        refine ⟨hact, ?_, ?_⟩
        · simp [step, hc, hdeps, Function.update_same]
        · refine ⟨⟨depositId, SettleKind.timedOut, tr.recipient, tr.amount⟩, ?_, ?_, rfl, ?_, ?_, ?_⟩
          · simp [step, hc]
          · simp [step, hc, settlementsFor]
          · rw [htr]
          · intro hk
            exact absurd hk (by simp)
          · intro _
            rw [htr]
      · left
        refine ⟨?_, ?_⟩
        · simp only [step, hc, hdeps]
          exact Function.update_noteq (fun hh => hide hh.symm) _ _
        · simp [step, hc, settlementsFor, hide]
    | error e => left; simp [step, hc, settlementsFor]

/-- Once a created deposit is not `Active`, no later call sequence changes
its record or moves funds for it. -/
theorem run_inactive_frozen (ops : List Op) (st : EscrowState) (id : Nat)
    (hid : id < st.nextDepositId)
    (h : (st.deposits id).status ≠ DepositStatus.Active) :
    (run st ops).1.deposits id = st.deposits id ∧
    settlementsFor id (run st ops).2 = [] := by
  induction ops generalizing st with
  | nil => simp [run, settlementsFor]
  | cons op ops ih =>
    rcases step_char st op id hid with ⟨hrec, hset⟩ | ⟨hact, -, -⟩
    · have hid2 : id < (step st op).1.nextDepositId :=
        lt_of_lt_of_le hid (step_next_mono st op)
      have h2 : ((step st op).1.deposits id).status ≠ DepositStatus.Active := by
        rw [hrec]; exact h
      obtain ⟨ih1, ih2⟩ := ih (step st op).1 hid2 h2
      constructor
      · simp only [run]
        rw [ih1, hrec]
      · simp only [run]
        rw [settlementsFor_append, ih2, hset]
        rfl
    · exact absurd hact h

/-- A created deposit is settled at most once along any call sequence, always
with its recorded amount, to its treasury on a slash and to its depositor on
a refund or timeout. -/
theorem run_settles_at_most_once (ops : List Op) (st : EscrowState) (id : Nat)
    (hid : id < st.nextDepositId) :
    (settlementsFor id (run st ops).2).length ≤ 1 ∧
    ∀ s ∈ settlementsFor id (run st ops).2,
      s.depositId = id ∧ s.amount = (st.deposits id).amount ∧
      (s.kind = SettleKind.slashed → s.recipient = (st.deposits id).treasury) ∧
      (s.kind ≠ SettleKind.slashed → s.recipient = (st.deposits id).depositor) := by
  induction ops generalizing st with
  | nil => simp [run, settlementsFor]
  | cons op ops ih =>
    have hid2 : id < (step st op).1.nextDepositId :=
      lt_of_lt_of_le hid (step_next_mono st op)
    rcases step_char st op id hid with ⟨hrec, hset⟩ | ⟨hact, hinact, s, hs2, hsf, hsid, hsamt, hslash, hnslash⟩
    · obtain ⟨ih1, ih2⟩ := ih (step st op).1 hid2
      constructor
      · simp only [run]
        rw [settlementsFor_append, hset]
        simpa using ih1
      · simp only [run]
        rw [settlementsFor_append, hset]
        simp only [List.nil_append]
        intro t ht
        have := ih2 t ht
        rwa [hrec] at this
    · have hfrozen := run_inactive_frozen ops (step st op).1 id hid2 hinact
      constructor
      · simp only [run]
        rw [settlementsFor_append, hsf, hfrozen.2]
        simp
      · simp only [run]
        rw [settlementsFor_append, hsf, hfrozen.2]
        simp only [List.append_nil, List.mem_singleton]
        rintro t rfl
        exact ⟨hsid, hsamt, hslash, hnslash⟩

/-- A mapping slot that starts at the default record and is never targeted by
a settlement call, and whose id is never reached by `nextDepositId`, still
holds the default record after any call sequence. -/
theorem run_default_untargeted (ops : List Op) (st : EscrowState) (id : Nat)
    (hd : st.deposits id = defaultDeposit)
    (hfinal : (run st ops).1.nextDepositId ≤ id)
    (hops : ∀ op ∈ ops, ¬ opTargets op id) :
    (run st ops).1.deposits id = defaultDeposit := by
  induction ops generalizing st with
  | nil => simpa [run] using hd
  | cons op ops ih =>
    have hfinal2 : (run (step st op).1 ops).1.nextDepositId ≤ id := by
      simpa only [run] using hfinal
    have hstep : (step st op).1.deposits id = defaultDeposit := by
      cases op with
      | createOp sender now repoId prNumber treasury amount =>
        cases hc : deposit st sender now repoId prNumber treasury amount with
        | ok v =>
          obtain ⟨st1, did⟩ := v
          obtain ⟨-, hnext, hdeps, -, -, -⟩ := deposit_ok_inv hc
          have hlt : st.nextDepositId < id := by
            have h1 : (step st (Op.createOp sender now repoId prNumber treasury amount)).1.nextDepositId ≤ id :=
              le_trans (run_next_mono ops _) hfinal2
            have h2 : (step st (Op.createOp sender now repoId prNumber treasury amount)).1.nextDepositId = st.nextDepositId + 1 := by
              simp only [step, hc]
              exact hnext
            omega
          simp only [step, hc, hdeps]
          rw [Function.update_noteq (Nat.ne_of_gt hlt) _ _]
          exact hd
        | error e => simpa [step, hc] using hd
      | refundOp now depositId deadline sig =>
        have hne : depositId ≠ id := hops (Op.refundOp now depositId deadline sig) (List.mem_cons_self _ ops)
        cases hc : refund st now depositId deadline sig with
        | ok v =>
          obtain ⟨st1, tr⟩ := v
          obtain ⟨-, -, -, -, -, hdeps, -, -, -, -⟩ := refund_ok_inv hc
          simp only [step, hc, hdeps]
          rw [Function.update_noteq (fun hh => hne hh.symm) _ _]
          exact hd
        | error e => simpa [step, hc] using hd
      | slashOp now depositId deadline sig =>
        have hne : depositId ≠ id := hops (Op.slashOp now depositId deadline sig) (List.mem_cons_self _ ops)
        cases hc : slash st now depositId deadline sig with
        | ok v =>
          obtain ⟨st1, tr⟩ := v
          obtain ⟨-, -, -, -, -, hdeps, -, -, -, -⟩ := slash_ok_inv hc
          simp only [step, hc, hdeps]
          rw [Function.update_noteq (fun hh => hne hh.symm) _ _]
          exact hd
        | error e => simpa [step, hc] using hd
      | timeoutOp caller now depositId =>
        have hne : depositId ≠ id := hops (Op.timeoutOp caller now depositId) (List.mem_cons_self _ ops)
        cases hc : claimTimeout st caller now depositId with
        | ok v =>
          obtain ⟨st1, tr⟩ := v
          obtain ⟨-, -, -, hdeps, -, -, -, -⟩ := claimTimeout_ok_inv hc
          simp only [step, hc, hdeps]
          rw [Function.update_noteq (fun hh => hne hh.symm) _ _]
          exact hd
        | error e => simpa [step, hc] using hd
    have htail : ∀ op2 ∈ ops, ¬ opTargets op2 id :=
      fun op2 hop2 => hops op2 (List.mem_cons_of_mem op hop2)
    have hres := ih (step st op).1 hstep hfinal2 htail
    simpa only [run] using hres

/-- Exactly-once settlement: starting from an Active created deposit, any
call sequence either leaves it Active with no settlement, or leaves it
settled (non-Active) with exactly one settlement — carrying the record's
amount, to the treasury on a slash and to the depositor otherwise. -/
theorem run_settled_exactly_once (ops : List Op) (st : EscrowState) (id : Nat)
    (hid : id < st.nextDepositId)
    (hact : (st.deposits id).status = DepositStatus.Active) :
    (((run st ops).1.deposits id).status = DepositStatus.Active ∧
       settlementsFor id (run st ops).2 = []) ∨
    (((run st ops).1.deposits id).status ≠ DepositStatus.Active ∧
       ∃ s, settlementsFor id (run st ops).2 = [s] ∧
         s.depositId = id ∧ s.amount = (st.deposits id).amount ∧
         (s.kind = SettleKind.slashed → s.recipient = (st.deposits id).treasury) ∧
         (s.kind ≠ SettleKind.slashed → s.recipient = (st.deposits id).depositor)) := by
  induction ops generalizing st with
  | nil =>
    left
    exact ⟨by simpa [run] using hact, by simp [run, settlementsFor]⟩
  | cons op ops ih =>
    have hid2 : id < (step st op).1.nextDepositId :=
      lt_of_lt_of_le hid (step_next_mono st op)
    rcases step_char st op id hid with ⟨hrec, hset⟩ |
      ⟨-, hinact, s, hs2, hsf, hsid, hsamt, hslash, hnslash⟩
    · have hact2 : ((step st op).1.deposits id).status = DepositStatus.Active := by
        rw [hrec]; exact hact
      rcases ih (step st op).1 hid2 hact2 with ⟨ha, hb⟩ | ⟨ha, s, hb, hbid, hbamt, hbsl, hbnsl⟩
      · left
        constructor
        · simpa only [run] using ha
        · simp only [run]
          rw [settlementsFor_append, hset, hb]
          rfl
      · right
        constructor
        · simpa only [run] using ha
        · refine ⟨s, ?_, hbid, ?_, ?_, ?_⟩
          · simp only [run]
            rw [settlementsFor_append, hset, hb]
            rfl
          · rw [hbamt, hrec]
          · intro hk
            rw [hbsl hk, hrec]
          · intro hk
            rw [hbnsl hk, hrec]
    · have hfrozen := run_inactive_frozen ops (step st op).1 id hid2 hinact
      right
      constructor
      · simp only [run]
        rw [hfrozen.1]
        exact hinact
      · refine ⟨s, ?_, hsid, hsamt, hslash, hnslash⟩
        simp only [run]
        rw [settlementsFor_append, hsf, hfrozen.2]
        rfl

/-! ### Concrete example states used by witnesses and counterexamples -/

/-- An honest signature by the configured signer (address 7) over the Refund
digest for deposit 0 with deadline 100, in domain 0; on any other message it
recovers to address 8. -/
def exSig : Signature :=
  idealSignature 7 (refundDigest 0 0 100) (fun _ => 8)

/-- State after one deposit: depositor 3 deposits amount 5 for repo 0 / PR 1
with treasury 9 at time 0; the deposit gets id 0 and is Active. -/
def exSt0 : EscrowState :=
  (run (genesis 0 7) [Op.createOp 3 0 0 1 9 5]).1

/-- State after that deposit has been refunded (at time 10, deadline 100,
with the honest signature): deposit 0 is Refunded and its digest is used. -/
def exSt1 : EscrowState :=
  (run (genesis 0 7) [Op.createOp 3 0 0 1 9 5, Op.refundOp 10 0 100 exSig]).1

/-! ### C1 -/

/-- C1, counterexample to the claim as stated: on a settled (Refunded)
deposit, a `refund` call whose deadline has passed fails with
`SignatureExpired`, not `DepositNotActive` — the deadline check runs before
the status check. -/
theorem C1_cex :
    (exSt1.deposits 0).status = DepositStatus.Refunded ∧
    refund exSt1 200 0 100 exSig = Except.error EscrowError.SignatureExpired ∧
    EscrowError.SignatureExpired ≠ EscrowError.DepositNotActive :=
  ⟨rfl, rfl, by decide⟩

/-- C1 (amended): for every created deposit (id below `nextDepositId`), at
most one terminal transition ever occurs: once its status is not `Active`
every subsequent `refund`/`slash` fails — with `DepositNotActive` when the
deadline has not passed and `SignatureExpired` otherwise — every
`claimTimeout` fails with `DepositNotActive`, the record never changes again
and no further funds move for it; along any call sequence the deposit is
settled at most once, always with its recorded amount, to the treasury on a
slash and to the depositor on a refund or timeout; and starting from an
Active deposit, any call sequence after which the deposit is no longer
Active has transferred its amount exactly once, to exactly one destination
(the depositor on Refund/TimedOut, the treasury on Slash), while a sequence
leaving it Active has transferred nothing for it. -/
theorem C1_terminal_transition_unique (st : EscrowState) (id : Nat)
    (hid : id < st.nextDepositId) :
    ((st.deposits id).status ≠ DepositStatus.Active →
      (∀ now deadline sig, refund st now id deadline sig =
          Except.error (if deadline < now then EscrowError.SignatureExpired
                        else EscrowError.DepositNotActive)) ∧
      (∀ now deadline sig, slash st now id deadline sig =
          Except.error (if deadline < now then EscrowError.SignatureExpired
                        else EscrowError.DepositNotActive)) ∧
      (∀ caller now, claimTimeout st caller now id =
          Except.error EscrowError.DepositNotActive) ∧
      (∀ ops, (run st ops).1.deposits id = st.deposits id ∧
              settlementsFor id (run st ops).2 = [])) ∧
    (∀ ops, (settlementsFor id (run st ops).2).length ≤ 1 ∧
       ∀ s ∈ settlementsFor id (run st ops).2,
         s.amount = (st.deposits id).amount ∧
         (s.kind = SettleKind.slashed → s.recipient = (st.deposits id).treasury) ∧
         (s.kind ≠ SettleKind.slashed → s.recipient = (st.deposits id).depositor)) ∧
    ((st.deposits id).status = DepositStatus.Active →
      ∀ ops,
        (((run st ops).1.deposits id).status = DepositStatus.Active ∧
           settlementsFor id (run st ops).2 = []) ∨
        (((run st ops).1.deposits id).status ≠ DepositStatus.Active ∧
           ∃ s, settlementsFor id (run st ops).2 = [s] ∧
             s.depositId = id ∧ s.amount = (st.deposits id).amount ∧
             (s.kind = SettleKind.slashed → s.recipient = (st.deposits id).treasury) ∧
             (s.kind ≠ SettleKind.slashed → s.recipient = (st.deposits id).depositor))) := by
  refine ⟨?_, ?_, ?_⟩
  · intro h
    exact ⟨fun now deadline sig => refund_inactive_eq h,
           fun now deadline sig => slash_inactive_eq h,
           fun caller now => claimTimeout_inactive_eq h,
           fun ops => run_inactive_frozen ops st id hid h⟩
  · intro ops
    obtain ⟨h1, h2⟩ := run_settles_at_most_once ops st id hid
    exact ⟨h1, fun s hs => ⟨(h2 s hs).2.1, (h2 s hs).2.2.1, (h2 s hs).2.2.2⟩⟩
  · intro hact ops
    exact run_settled_exactly_once ops st id hid hact

/-- C1, witness: on the concrete settled deposit 0 of `exSt1`, a timeout
claim fails with `DepositNotActive` and a further call sequence moves no
funds for it; and from the Active deposit 0 of `exSt0`, a call sequence that
settles it produces exactly one settlement. -/
theorem C1_witness :
    claimTimeout exSt1 4 2592001 0 = Except.error EscrowError.DepositNotActive ∧
    settlementsFor 0 (run exSt1 [Op.timeoutOp 4 2592001 0]).2 = [] ∧
    (settlementsFor 0 (run exSt0 [Op.refundOp 10 0 100 exSig]).2).length = 1 := by
  have h := (C1_terminal_transition_unique exSt1 0 (by decide)).1 (by decide)
  refine ⟨h.2.2.1 4 2592001, (h.2.2.2 [Op.timeoutOp 4 2592001 0]).2, ?_⟩
  have h3 := (C1_terminal_transition_unique exSt0 0 (by decide)).2.2 (by decide)
    [Op.refundOp 10 0 100 exSig]
  rcases h3 with ⟨ha, -⟩ | ⟨-, s, hb, -⟩
  · exact absurd ha (by decide)
  · rw [hb]
    rfl

/-! ### C2 -/

/-- C2: the precondition/postcondition contract of `refund` and `slash` on an
Active deposit, in the code's check order: deadline passed → `SignatureExpired`;
not Active → `DepositNotActive`; digest already used → `SignatureAlreadyUsed`;
wrong recovered signer → `InvalidSignature`; all preconditions satisfied →
the digest is marked used, the status becomes Refunded (resp. Slashed), the
amount is transferred to the depositor (resp. treasury), and the
corresponding settlement event is emitted. -/
theorem C2_settlement_spec (st : EscrowState) (now id deadline : Nat) (sig : Signature) :
    ((deadline < now →
        refund st now id deadline sig = Except.error EscrowError.SignatureExpired) ∧
     (¬ deadline < now → (st.deposits id).status ≠ DepositStatus.Active →
        refund st now id deadline sig = Except.error EscrowError.DepositNotActive) ∧
     (¬ deadline < now → (st.deposits id).status = DepositStatus.Active →
        st.usedSignatures (refundDigest st.domainSep id deadline) = true →
        refund st now id deadline sig = Except.error EscrowError.SignatureAlreadyUsed) ∧
     (¬ deadline < now → (st.deposits id).status = DepositStatus.Active →
        st.usedSignatures (refundDigest st.domainSep id deadline) = false →
        ecrecover (refundDigest st.domainSep id deadline) sig ≠ st.signer →
        refund st now id deadline sig = Except.error EscrowError.InvalidSignature) ∧
     (¬ deadline < now → (st.deposits id).status = DepositStatus.Active →
        st.usedSignatures (refundDigest st.domainSep id deadline) = false →
        ecrecover (refundDigest st.domainSep id deadline) sig = st.signer →
        refund st now id deadline sig =
          Except.ok
            ({ st with
                usedSignatures := Function.update st.usedSignatures
                  (refundDigest st.domainSep id deadline) true
                deposits := Function.update st.deposits id
                  { st.deposits id with status := DepositStatus.Refunded } },
              { recipient := (st.deposits id).depositor,
                amount := (st.deposits id).amount }) ∧
        (step st (Op.refundOp now id deadline sig)).2 =
          [⟨id, SettleKind.refunded, (st.deposits id).depositor, (st.deposits id).amount⟩])) ∧
    ((deadline < now →
        slash st now id deadline sig = Except.error EscrowError.SignatureExpired) ∧
     (¬ deadline < now → (st.deposits id).status ≠ DepositStatus.Active →
        slash st now id deadline sig = Except.error EscrowError.DepositNotActive) ∧
     (¬ deadline < now → (st.deposits id).status = DepositStatus.Active →
        st.usedSignatures (slashDigest st.domainSep id deadline) = true →
        slash st now id deadline sig = Except.error EscrowError.SignatureAlreadyUsed) ∧
     (¬ deadline < now → (st.deposits id).status = DepositStatus.Active →
        st.usedSignatures (slashDigest st.domainSep id deadline) = false →
        ecrecover (slashDigest st.domainSep id deadline) sig ≠ st.signer →
        slash st now id deadline sig = Except.error EscrowError.InvalidSignature) ∧
     (¬ deadline < now → (st.deposits id).status = DepositStatus.Active →
        st.usedSignatures (slashDigest st.domainSep id deadline) = false →
        ecrecover (slashDigest st.domainSep id deadline) sig = st.signer →
        slash st now id deadline sig =
          Except.ok
            ({ st with
                usedSignatures := Function.update st.usedSignatures
                  (slashDigest st.domainSep id deadline) true
                deposits := Function.update st.deposits id
                  { st.deposits id with status := DepositStatus.Slashed } },
              { recipient := (st.deposits id).treasury,
                amount := (st.deposits id).amount }) ∧
        (step st (Op.slashOp now id deadline sig)).2 =
          [⟨id, SettleKind.slashed, (st.deposits id).treasury, (st.deposits id).amount⟩])) := by
  constructor
  · refine ⟨?_, ?_, ?_, ?_, ?_⟩
    · intro h1
      simp [refund, h1]
    · intro h1 h2
      rw [refund_inactive_eq h2]
      simp [h1]
    · intro h1 h2 h3
      simp [refund, h1, h2, h3]
    · intro h1 h2 h3 h4
      simp [refund, h1, h2, h3, h4]
    · intro h1 h2 h3 h4
      have hok : refund st now id deadline sig =
          Except.ok
            ({ st with
                usedSignatures := Function.update st.usedSignatures
                  (refundDigest st.domainSep id deadline) true
                deposits := Function.update st.deposits id
                  { st.deposits id with status := DepositStatus.Refunded } },
              { recipient := (st.deposits id).depositor,
                amount := (st.deposits id).amount }) := by
        simp [refund, h1, h2, h3, h4]
      exact ⟨hok, by simp [step, hok]⟩
  · refine ⟨?_, ?_, ?_, ?_, ?_⟩
    · intro h1
      simp [slash, h1]
    · intro h1 h2
      rw [slash_inactive_eq h2]
      simp [h1]
    · intro h1 h2 h3
      simp [slash, h1, h2, h3]
    · intro h1 h2 h3 h4
      simp [slash, h1, h2, h3, h4]
    · intro h1 h2 h3 h4
      have hok : slash st now id deadline sig =
          Except.ok
            ({ st with
                usedSignatures := Function.update st.usedSignatures
                  (slashDigest st.domainSep id deadline) true
                deposits := Function.update st.deposits id
                  { st.deposits id with status := DepositStatus.Slashed } },
              { recipient := (st.deposits id).treasury,
                amount := (st.deposits id).amount }) := by
        simp [slash, h1, h2, h3, h4]
      exact ⟨hok, by simp [step, hok]⟩

/-- C2, witness: concrete applications of the spec — an expired refund on the
active example deposit, and a slash with a Refund-only signature, which
recovers to the wrong address. -/
theorem C2_witness :
    refund exSt0 999 0 100 exSig = Except.error EscrowError.SignatureExpired ∧
    slash exSt0 10 0 100 exSig = Except.error EscrowError.InvalidSignature := by
  refine ⟨(C2_settlement_spec exSt0 999 0 100 exSig).1.1 (by decide), ?_⟩
  exact (C2_settlement_spec exSt0 10 0 100 exSig).2.2.2.2.1
    (by decide) (by decide) (by decide) (by decide)

/-! ### C3 -/

/-- An honest signature by the signer (address 7) over the message the
backend actually signs for (depositId 0, deadline 100) — the EIP-191-wrapped
digest, as produced by viem's `signMessage` on the raw digest bytes. -/
def backendSig : Signature :=
  idealSignature 7 (backendRefundSignedMessage 0 0 100) (fun _ => 8)

/-- C3: the message the backend signs is NOT the digest the contract
recovers against.  `createRefundSignature` builds the correct EIP-712 digest
but then signs it with `signMessage({ message: { raw: digest } })`, which
signs the EIP-191 personal-message hash of the digest.  The contract's
`refund` recovers over the raw EIP-712 digest, so the backend's signature
recovers to a different address there and the call reverts with
`InvalidSignature` (shown on the concrete active deposit 0 of `exSt0`,
whose signer is exactly the address the backend's signature recovers to on
the message it signed). -/
theorem C3_backend_signs_wrong_message :
    (∀ d i dl, backendRefundSignedMessage d i dl ≠ refundDigest d i dl) ∧
    (∀ d i dl, backendSlashSignedMessage d i dl ≠ slashDigest d i dl) ∧
    ecrecover (backendRefundSignedMessage 0 0 100) backendSig = exSt0.signer ∧
    (exSt0.deposits 0).status = DepositStatus.Active ∧
    refund exSt0 10 0 100 backendSig = Except.error EscrowError.InvalidSignature := by
  refine ⟨?_, ?_, rfl, rfl, rfl⟩
  · intro d i dl h
    exact Message.noConfusion h
  · intro d i dl h
    exact Message.noConfusion h

/-! ### C4 -/

/-- C4, counterexample to the claim as stated: an honest deposit-then-refund
trace settles deposit 0 (first call succeeds and pays depositor 3 the
amount 5); resubmitting the very same (depositId 0, deadline 100, signature)
to `refund` fails with `DepositNotActive`, not `SignatureAlreadyUsed` — the
status check runs before the used-digest check. -/
theorem C4_cex :
    (run (genesis 0 7) [Op.createOp 3 0 0 1 9 5, Op.refundOp 10 0 100 exSig]).2 =
      [⟨0, SettleKind.refunded, 3, 5⟩] ∧
    refund exSt1 10 0 100 exSig = Except.error EscrowError.DepositNotActive ∧
    EscrowError.DepositNotActive ≠ EscrowError.SignatureAlreadyUsed :=
  ⟨rfl, rfl, by decide⟩

/-- C4 (amended): after a successful `refund`, its digest is in the
used-signature set and every resubmission for the same deposit fails (with
`DepositNotActive` when in date, `SignatureExpired` otherwise, since the
status check precedes the used-digest check); and, in general, a digest
present in the used-signature set can never authorize another call — any
`refund` (resp. `slash`) whose recomputed digest is already used cannot
succeed. -/
theorem C4_used_digest_blocks (st : EscrowState) (now id deadline : Nat) (sig : Signature) :
    (∀ st1 tr, refund st now id deadline sig = Except.ok (st1, tr) →
       st1.usedSignatures (refundDigest st.domainSep id deadline) = true ∧
       ∀ now2 deadline2 sig2,
         refund st1 now2 id deadline2 sig2 =
           Except.error (if deadline2 < now2 then EscrowError.SignatureExpired
                         else EscrowError.DepositNotActive)) ∧
    (st.usedSignatures (refundDigest st.domainSep id deadline) = true →
       ∀ out, refund st now id deadline sig ≠ Except.ok out) ∧
    (st.usedSignatures (slashDigest st.domainSep id deadline) = true →
       ∀ out, slash st now id deadline sig ≠ Except.ok out) := by
  refine ⟨?_, fun h out => refund_used_not_ok h out, fun h out => slash_used_not_ok h out⟩
  intro st1 tr hok
  obtain ⟨-, -, -, -, -, hdeps, hused, -, -, -⟩ := refund_ok_inv hok
  constructor
  · rw [hused]
    exact Function.update_same _ _ _
  · intro now2 deadline2 sig2
    apply refund_inactive_eq
    rw [hdeps, Function.update_same]
    simp

/-- C4, witness: in the concrete post-refund state the digest for
(deposit 0, deadline 100) is used, and no resubmission can return `ok`. -/
theorem C4_witness :
    exSt1.usedSignatures (refundDigest exSt1.domainSep 0 100) = true ∧
    refund exSt1 10 0 100 exSig ≠ Except.ok (exSt1, ⟨3, 5⟩) := by
  refine ⟨by decide, ?_⟩
  exact (C4_used_digest_blocks exSt1 10 0 100 exSig).2.1 (by decide) (exSt1, ⟨3, 5⟩)

/-! ### C5 -/

/-- C5: `claimTimeout` ignores the caller entirely (anyone can call); the
timeout window is the fixed constant 30 days; on an Active deposit it fails
with `TimeoutNotReached` strictly before `createdAt + TIMEOUT_DURATION`, and
at or after that time it succeeds, sets status `TimedOut` and transfers the
amount to the original depositor — whoever called. -/
theorem C5_claimTimeout_spec (st : EscrowState) (caller caller2 : Address) (now id : Nat) :
    claimTimeout st caller now id = claimTimeout st caller2 now id ∧
    TIMEOUT_DURATION = 30 * 24 * 60 * 60 ∧
    ((st.deposits id).status = DepositStatus.Active →
      (now < (st.deposits id).timestamp + TIMEOUT_DURATION →
         claimTimeout st caller now id = Except.error EscrowError.TimeoutNotReached) ∧
      ((st.deposits id).timestamp + TIMEOUT_DURATION ≤ now →
         claimTimeout st caller now id =
           Except.ok
             ({ st with
                 deposits := Function.update st.deposits id
                   { st.deposits id with status := DepositStatus.TimedOut } },
               { recipient := (st.deposits id).depositor,
                 amount := (st.deposits id).amount }))) := by
  refine ⟨rfl, rfl, ?_⟩
  intro hact
  constructor
  · intro hlt
    simp [claimTimeout, hact, hlt]
  · intro hle
    simp [claimTimeout, hact, Nat.not_lt.mpr hle]

/-- C5, witness: on the active example deposit (created at time 0), an early
claim by address 4 fails `TimeoutNotReached`, and at exactly 30 days a claim
by the unrelated address 11 succeeds and pays depositor 3 the amount 5. -/
theorem C5_witness :
    claimTimeout exSt0 4 100 0 = Except.error EscrowError.TimeoutNotReached ∧
    claimTimeout exSt0 11 2592000 0 =
      Except.ok
        ({ exSt0 with
            deposits := Function.update exSt0.deposits 0
              { exSt0.deposits 0 with status := DepositStatus.TimedOut } },
          { recipient := 3, amount := 5 }) := by
  constructor
  · exact ((C5_claimTimeout_spec exSt0 4 4 100 0).2.2 (by decide)).1 (by decide)
  · have h := ((C5_claimTimeout_spec exSt0 11 11 2592000 0).2.2 (by decide)).2 (by decide)
    rw [h]
    rfl

/-! ### C7 -/

/-- C7: domain separation of the settlement digests.  The Refund and Slash
digests differ for every (depositId, deadline) (distinct type tags), digests
for distinct (depositId, deadline) pairs differ, and the computation is a
pure function of (type, depositId, deadline, domain) — two equal inputs give
the same digest.  Consequently, a signature that recovers to the signer only
on the Refund digest of deposit A is rejected (`InvalidSignature`) when
submitted to `slash`, and when submitted to `refund` for any other deposit B,
even with the same deadline. -/
theorem C7_domain_separation :
    (∀ d i dl, refundDigest d i dl ≠ slashDigest d i dl) ∧
    (∀ d i dl i2 dl2, ¬ (i = i2 ∧ dl = dl2) → refundDigest d i dl ≠ refundDigest d i2 dl2) ∧
    (∀ d i dl i2 dl2, ¬ (i = i2 ∧ dl = dl2) → slashDigest d i dl ≠ slashDigest d i2 dl2) ∧
    (∀ d i dl i2 dl2, refundDigest d i dl ≠ slashDigest d i2 dl2) ∧
    (∀ d i dl d2 i2 dl2, d = d2 → i = i2 → dl = dl2 →
       refundDigest d i dl = refundDigest d2 i2 dl2 ∧
       slashDigest d i dl = slashDigest d2 i2 dl2) ∧
    (∀ (st : EscrowState) (now idA deadlineA idB deadline : Nat) (sig : Signature),
       (∀ m, ecrecover m sig = st.signer → m = refundDigest st.domainSep idA deadlineA) →
       (¬ deadline < now →
          (st.deposits idA).status = DepositStatus.Active →
          st.usedSignatures (slashDigest st.domainSep idA deadline) = false →
          slash st now idA deadline sig = Except.error EscrowError.InvalidSignature) ∧
       (idB ≠ idA →
          ¬ deadline < now →
          (st.deposits idB).status = DepositStatus.Active →
          st.usedSignatures (refundDigest st.domainSep idB deadline) = false →
          refund st now idB deadline sig = Except.error EscrowError.InvalidSignature)) := by
  refine ⟨?_, ?_, ?_, ?_, ?_, ?_⟩
  · intro d i dl h
    simp [refundDigest, slashDigest] at h
  · intro d i dl i2 dl2 h heq
    simp only [refundDigest, Message.eip712.injEq, true_and] at heq
    exact h ⟨heq.1, heq.2.1⟩
  · intro d i dl i2 dl2 h heq
    simp only [slashDigest, Message.eip712.injEq, true_and] at heq
    exact h ⟨heq.1, heq.2.1⟩
  · intro d i dl i2 dl2 h
    simp [refundDigest, slashDigest] at h
  · intro d i dl d2 i2 dl2 h1 h2 h3
    subst h1; subst h2; subst h3
    exact ⟨rfl, rfl⟩
  · intro st now idA deadlineA idB deadline sig hsig
    constructor
    · intro h1 h2 h3
      have hne : ecrecover (slashDigest st.domainSep idA deadline) sig ≠ st.signer := by
        intro hrec
        have := hsig _ hrec
        simp [slashDigest, refundDigest] at this
      simp [slash, h1, h2, h3, hne]
    · intro hB h1 h2 h3
      have hne : ecrecover (refundDigest st.domainSep idB deadline) sig ≠ st.signer := by
        intro hrec
        have := hsig _ hrec
        simp only [refundDigest, Message.eip712.injEq, true_and] at this
        exact hB this.1
      simp [refund, h1, h2, h3, hne]

/-- C7, witness: the honest Refund signature for deposit 0 / deadline 100 is
rejected by `slash` on deposit 0 and by `refund` on deposit 1, both with
`InvalidSignature`. -/
theorem C7_witness :
    slash exSt0 10 0 100 exSig = Except.error EscrowError.InvalidSignature ∧
    refund exSt0 10 1 100 exSig = Except.error EscrowError.InvalidSignature := by
  have hsig : ∀ m, ecrecover m exSig = exSt0.signer → m = refundDigest exSt0.domainSep 0 100 := by
    intro m hm
    by_cases hmm : m = refundDigest 0 0 100
    · exact hmm
    · exfalso
      rw [show exSt0.signer = 7 from rfl] at hm
      simp only [ecrecover, exSig, idealSignature, if_neg hmm] at hm
      exact absurd hm (by decide)
  have h := C7_domain_separation.2.2.2.2.2 exSt0 10 0 100 1 100 exSig hsig
  exact ⟨h.1 (by decide) (by decide) (by decide),
         h.2 (by decide) (by decide) (by decide) (by decide)⟩

/-! ### C8 -/

/-- C8, counterexample to the claim as stated: deposit 0 of `exSt1` is a
created deposit (nextDepositId is 1) whose window has fully elapsed at time
30 days, yet `canClaimTimeout` is false — because the deposit was settled
(Refunded) and `canClaimTimeout` also requires status Active. -/
theorem C8_cex :
    exSt1.nextDepositId = 1 ∧
    (exSt1.deposits 0).status = DepositStatus.Refunded ∧
    (exSt1.deposits 0).timestamp + TIMEOUT_DURATION ≤ 2592000 ∧
    canClaimTimeout exSt1 2592000 0 = false :=
  ⟨rfl, rfl, by decide, rfl⟩

/-- C8 (amended): `canClaimTimeout` is false at every time strictly before
`createdAt + 30 days`, and true at and after that time for deposits that are
still Active (for a settled deposit it is false); `timeUntilTimeout` is
nonincreasing as the clock advances, is never negative (it is a natural
number, mirroring the guarded uint subtraction), and equals exactly 0
precisely once the window has elapsed. -/
theorem C8_timeout_views (st : EscrowState) (id now now2 : Nat) :
    (now < (st.deposits id).timestamp + TIMEOUT_DURATION →
       canClaimTimeout st now id = false) ∧
    ((st.deposits id).status = DepositStatus.Active →
       (st.deposits id).timestamp + TIMEOUT_DURATION ≤ now →
       canClaimTimeout st now id = true) ∧
    (now ≤ now2 → timeUntilTimeout st now2 id ≤ timeUntilTimeout st now id) ∧
    (timeUntilTimeout st now id = 0 ↔
       (st.deposits id).timestamp + TIMEOUT_DURATION ≤ now) := by
  refine ⟨?_, ?_, ?_, ?_⟩
  · intro h
    have hn : ¬ ((st.deposits id).timestamp + TIMEOUT_DURATION ≤ now) := by omega
    simp [canClaimTimeout, hn]
  · intro h1 h2
    simp [canClaimTimeout, h1, h2]
  · intro h
    simp only [timeUntilTimeout]
    split_ifs <;> omega
  · simp only [timeUntilTimeout]
    split_ifs with h
    · simp [h]
    · constructor
      · intro h2
        omega
      · intro h2
        exact absurd h2 h

/-- C8, witness: on the active example deposit (created at time 0),
`canClaimTimeout` flips from false to true exactly at 30 days, and
`timeUntilTimeout` shrinks from the full window to 0, never increasing. -/
theorem C8_witness :
    canClaimTimeout exSt0 2591999 0 = false ∧
    canClaimTimeout exSt0 2592000 0 = true ∧
    timeUntilTimeout exSt0 100 0 ≤ timeUntilTimeout exSt0 10 0 ∧
    (timeUntilTimeout exSt0 2592000 0 = 0 ∧ timeUntilTimeout exSt0 10 0 ≠ 0) := by
  refine ⟨(C8_timeout_views exSt0 0 2591999 0).1 (by decide),
          (C8_timeout_views exSt0 0 2592000 0).2.1 (by decide) (by decide),
          (C8_timeout_views exSt0 0 10 100).2.2.1 (by decide), ?_, ?_⟩
  · exact (C8_timeout_views exSt0 0 2592000 0).2.2.2.mpr (by decide)
  · intro h
    exact absurd ((C8_timeout_views exSt0 0 10 0).2.2.2.mp h) (by decide)

/-! ### C9 -/

/-- C9: the refund request route returns an authorization only when the
caller is the deposit's owning user, the mirrored status is `confirmed`, and
the associated PR is merged or closed; each violated precondition is
rejected with the corresponding HTTP error and no signature is generated
(the produced-signature flag equals success of the response); on success the
returned deadline is exactly one hour (3600 s) after the request time and
the returned depositId is the deposit's on-chain id. -/
theorem C9_requestRefund_spec (authUser : Option Nat) (dep : Option MirrorDeposit)
    (pr : Option PrState) (now : Nat) (signerConfigured : Bool) :
    (∀ ok, (refundRoute authUser dep pr now signerConfigured).1 = Except.ok ok →
       ∃ uid d p, authUser = some uid ∧ dep = some d ∧ pr = some p ∧
         d.userId = uid ∧ d.status = MirrorStatus.confirmed ∧
         (p = PrState.merged ∨ p = PrState.closed) ∧
         ok.depositId = d.onchainId ∧ ok.deadline = now + 3600) ∧
    (authUser = none →
       refundRoute authUser dep pr now signerConfigured = (Except.error 401, false)) ∧
    (∀ uid, authUser = some uid → dep = none →
       refundRoute authUser dep pr now signerConfigured = (Except.error 404, false)) ∧
    (∀ uid d, authUser = some uid → dep = some d → d.userId ≠ uid →
       refundRoute authUser dep pr now signerConfigured = (Except.error 403, false)) ∧
    (∀ uid d, authUser = some uid → dep = some d → d.userId = uid →
       d.status ≠ MirrorStatus.confirmed →
       refundRoute authUser dep pr now signerConfigured = (Except.error 400, false)) ∧
    (∀ uid d p, authUser = some uid → dep = some d → d.userId = uid →
       d.status = MirrorStatus.confirmed → pr = some p →
       p ≠ PrState.merged → p ≠ PrState.closed →
       refundRoute authUser dep pr now signerConfigured = (Except.error 400, false)) ∧
    ((refundRoute authUser dep pr now signerConfigured).2 =
       (refundRoute authUser dep pr now signerConfigured).1.toOption.isSome) := by
  refine ⟨?_, ?_, ?_, ?_, ?_, ?_, ?_⟩
  · intro ok hok
    cases authUser with
    | none => simp [refundRoute] at hok
    | some uid =>
      cases dep with
      | none => simp [refundRoute] at hok
      | some d =>
        by_cases h1 : d.userId = uid
        · by_cases h2 : d.status = MirrorStatus.confirmed
          · cases pr with
            | none => simp [refundRoute, h1, h2] at hok
            | some p =>
              by_cases h3 : p = PrState.merged ∨ p = PrState.closed
              · have hcond : ¬ (p ≠ PrState.merged ∧ p ≠ PrState.closed) := by tauto
                cases signerConfigured with
                | false => simp [refundRoute, h1, h2, hcond] at hok
                | true =>
                  simp only [refundRoute, h1, h2, ne_eq, not_true_eq_false, if_false,
                    if_neg hcond, if_true, Except.ok.injEq] at hok
                  exact ⟨uid, d, p, rfl, rfl, rfl, h1, h2, h3, by rw [← hok], by rw [← hok]⟩
              · have hcond : p ≠ PrState.merged ∧ p ≠ PrState.closed := by tauto
                simp [refundRoute, h1, h2, hcond] at hok
          · simp [refundRoute, h1, h2] at hok
        · simp [refundRoute, h1] at hok
  · intro h
    subst h
    rfl
  · intro uid h1 h2
    subst h1; subst h2
    rfl
  · intro uid d h1 h2 h3
    subst h1; subst h2
    simp [refundRoute, h3]
  · intro uid d h1 h2 h3 h4
    subst h1; subst h2
    simp [refundRoute, h3, h4]
  · intro uid d p h1 h2 h3 h4 h5 h6 h7
    subst h1; subst h2; subst h5
    simp [refundRoute, h3, h4, h6, h7]
  · cases authUser with
    | none => rfl
    | some uid =>
      cases dep with
      | none => rfl
      | some d =>
        by_cases h1 : d.userId = uid
        · by_cases h2 : d.status = MirrorStatus.confirmed
          · cases pr with
            | none => simp [refundRoute, h1, h2, Except.toOption]
            | some p =>
              by_cases h3 : p ≠ PrState.merged ∧ p ≠ PrState.closed
              · simp [refundRoute, h1, h2, h3, Except.toOption]
              · cases signerConfigured with
                | false => simp [refundRoute, h1, h2, h3, Except.toOption]
                | true => simp [refundRoute, h1, h2, h3, Except.toOption]
          · simp [refundRoute, h1, h2, Except.toOption]
        · simp [refundRoute, h1, Except.toOption]

/-- A concrete confirmed mirror deposit owned by user 1, with on-chain id 42. -/
def exMirrorDep : MirrorDeposit :=
  { userId := 1
    prId := 0
    onchainId := 42
    status := MirrorStatus.confirmed
    refundTxHash := none
    slashReason := none
    slashedById := none }

/-- C9, witness: user 1's refund request on the confirmed deposit with a
merged PR succeeds with deadline now + 3600, a non-owner (user 2) gets 403
with no signature generated, and an unauthenticated call gets 401. -/
theorem C9_witness :
    (refundRoute (some 1) (some exMirrorDep) (some PrState.merged) 1000 true).1 =
      Except.ok { depositId := 42, deadline := 4600 } ∧
    refundRoute (some 2) (some exMirrorDep) (some PrState.merged) 1000 true =
      (Except.error 403, false) ∧
    refundRoute none (some exMirrorDep) (some PrState.merged) 1000 true =
      (Except.error 401, false) := by
  refine ⟨rfl, ?_, ?_⟩
  · exact (C9_requestRefund_spec (some 2) (some exMirrorDep) (some PrState.merged)
      1000 true).2.2.2.1 2 exMirrorDep rfl rfl (by decide)
  · exact (C9_requestRefund_spec none (some exMirrorDep) (some PrState.merged)
      1000 true).2.1 rfl

/-! ### C10 -/

/-- C10: for a depositId never created (at or above the final
`nextDepositId`) and never targeted by a settlement call, the stored record
is the all-zero default — status Active (enum 0), createdAt 0 — so
`canClaimTimeout` returns true exactly when the current time is at least
`TIMEOUT_DURATION` past time 0, and `claimTimeout` then passes its status
and timeout checks and performs a zero-amount transfer to the zero address
instead of rejecting the unknown id. -/
theorem C10_phantom_deposit_claimable (domainSep signerAddr : Nat) (ops : List Op)
    (id now : Nat) (caller : Address)
    (hfinal : (run (genesis domainSep signerAddr) ops).1.nextDepositId ≤ id)
    (hops : ∀ op ∈ ops, ¬ opTargets op id) :
    (run (genesis domainSep signerAddr) ops).1.deposits id = defaultDeposit ∧
    canClaimTimeout (run (genesis domainSep signerAddr) ops).1 now id =
      decide (TIMEOUT_DURATION ≤ now) ∧
    (TIMEOUT_DURATION ≤ now →
      claimTimeout (run (genesis domainSep signerAddr) ops).1 caller now id =
        Except.ok
          ({ (run (genesis domainSep signerAddr) ops).1 with
              deposits := Function.update (run (genesis domainSep signerAddr) ops).1.deposits id
                { defaultDeposit with status := DepositStatus.TimedOut } },
            { recipient := 0, amount := 0 })) := by
  have hd := run_default_untargeted ops (genesis domainSep signerAddr) id rfl hfinal hops
  refine ⟨hd, ?_, ?_⟩
  · simp [canClaimTimeout, hd, defaultDeposit]
  · intro hle
    have hnlt : ¬ now < (0 : Nat) + TIMEOUT_DURATION := by omega
    simp only [claimTimeout, hd, defaultDeposit, ne_eq, not_true_eq_false, if_false, hnlt]

/-- C10, witness: after one real deposit (id 0), the never-created id 1
holds the default record and `canClaimTimeout 1` is already true at time
30 days (createdAt defaults to 0), and `claimTimeout` succeeds with a
zero-amount transfer to address 0. -/
theorem C10_witness :
    exSt0.deposits 1 = defaultDeposit ∧
    canClaimTimeout exSt0 2592000 1 = true ∧
    claimTimeout exSt0 4 2592000 1 =
      Except.ok
        ({ exSt0 with
            deposits := Function.update exSt0.deposits 1
              { defaultDeposit with status := DepositStatus.TimedOut } },
          { recipient := 0, amount := 0 }) := by
  have hops : ∀ op ∈ [Op.createOp 3 0 0 1 9 5], ¬ opTargets op 1 := by
    intro op hop
    rcases List.mem_singleton.mp hop with rfl
    exact fun h => h
  have h := C10_phantom_deposit_claimable 0 7 [Op.createOp 3 0 0 1 9 5] 1 2592000 4
    (by decide) hops
  refine ⟨h.1, ?_, h.2.2 (by decide)⟩
  have h2 : canClaimTimeout exSt0 2592000 1 = decide (TIMEOUT_DURATION ≤ 2592000) := h.2.1
  rw [h2]
  decide

/-! ### C6 -/

/-- C6, evaluation at the failing input: an authenticated maintainer (user 1)
slashes a confirmed deposit with a valid reason and the signing key
configured.  The route succeeds, returning only a signature authorization —
no on-chain transaction reference exists — yet the mirror record is already
set to the terminal status `slashed`.  Moreover, when the follow-up GitHub
calls fail, the route responds with error 500 while the mirror is still
left terminal.  Both contradict the claim that the mirror stays non-terminal
until on-chain confirmation. -/
theorem C6_optimistic_terminal_write :
    (slashRoute (some 1) "spam pull request" (some exMirrorDep) true true 1000 true true).1 =
      Except.ok { depositId := 42, deadline := 4600 } ∧
    ((slashRoute (some 1) "spam pull request" (some exMirrorDep) true true 1000 true true).2.map
       (fun d => d.status)) = some MirrorStatus.slashed ∧
    MirrorStatus.slashed.isTerminal = true ∧
    (slashRoute (some 1) "spam pull request" (some exMirrorDep) true true 1000 true false).1 =
      Except.error 500 ∧
    ((slashRoute (some 1) "spam pull request" (some exMirrorDep) true true 1000 true false).2.map
       (fun d => d.status)) = some MirrorStatus.slashed :=
  ⟨rfl, rfl, rfl, rfl, rfl⟩

end CodeReserve
